import Mathlib

set_option maxRecDepth 4000

/-!
# Verification of the property-search / facility-distance core

Shallow embedding of the filter, pagination and facility-distance logic of
the real-estate listings server (`server/routes.ts`, with the storage
query layer modelled from the specification where its source is absent).
JavaScript numbers are modelled as exact rationals; JavaScript string
parsing builtins (`parseInt`, `parseFloat`) are modelled on their decimal
forms (no exponent / hex syntax, which the endpoints never receive).
-/

/-- Numeric value of a list of decimal digit characters (most significant
first), as used by the leading-token parsers. -/
def natFromDigits (l : List Char) : ℕ :=
  l.foldl (fun a c => 10 * a + (c.toNat - 48)) 0

/-- JavaScript whitespace test for the characters `parseInt`/`parseFloat`
skip before the number. -/
def isJsWs (c : Char) : Bool :=
  c == ' ' || c == '\t' || c == '\n' || c == '\r'

/-- Read an optional sign character, returning the sign and the rest. -/
def readSign : List Char → ℤ × List Char
  | '-' :: t => (-1, t)
  | '+' :: t => (1, t)
  | t => (1, t)

/-- Model of JavaScript `parseInt(s)` (radix 10): skip whitespace, optional
sign, then a maximal run of decimal digits; `none` models `NaN` (no digit
found). -/
def parseIntJS (s : String) : Option ℤ :=
  let l := s.toList.dropWhile isJsWs
  let (sgn, l2) := readSign l
  let (ds, _) := l2.span Char.isDigit
  if ds.isEmpty then none else some (sgn * (natFromDigits ds : ℤ))

/-- Model of JavaScript `parseFloat(s)` on decimal forms: skip whitespace,
optional sign, digits with an optional fractional part; `none` models
`NaN`. -/
def parseFloatJS (s : String) : Option ℚ :=
  let l := s.toList.dropWhile isJsWs
  let (sgn, l2) := readSign l
  let (ds, r1) := l2.span Char.isDigit
  match r1 with
  | '.' :: r2 =>
    let (fs, _) := r2.span Char.isDigit
    if ds.isEmpty && fs.isEmpty then none
    else some ((sgn : ℚ) * ((natFromDigits ds : ℚ) + (natFromDigits fs : ℚ) / 10 ^ fs.length))
  | _ => if ds.isEmpty then none else some ((sgn : ℚ) * (natFromDigits ds : ℚ))

/-- The regex `/^(\d+(\.\d+)?)/` of `routes.ts` followed by `parseFloat` of
the captured token: the numeric value of a leading digit run with an
optional `.digits` fraction, `none` when the string does not begin with a
digit. -/
def distanceTextToQ (s : String) : Option ℚ :=
  let (ds, rest) := s.toList.span Char.isDigit
  if ds.isEmpty then none
  else
    match rest with
    | '.' :: r2 =>
      let (fs, _) := r2.span Char.isDigit
      if fs.isEmpty then some (natFromDigits ds : ℚ)
      else some ((natFromDigits ds : ℚ) + (natFromDigits fs : ℚ) / 10 ^ fs.length)
    | _ => some (natFromDigits ds : ℚ)

/-- JavaScript `x || d` on a number `x` that may be `NaN` (`none`): `NaN`
and `0` are falsy and give the default. -/
def jsQOr (o : Option ℚ) (d : ℚ) : ℚ :=
  match o with
  | none => d
  | some x => if x = 0 then d else x

/-- JavaScript `x || d` on an integer that may be `NaN` (`none`). -/
def jsIntOr (o : Option ℤ) (d : ℤ) : ℤ :=
  match o with
  | none => d
  | some x => if x = 0 then d else x

/-- Math.round: round half toward positive infinity. -/
def jsRound (x : ℚ) : ℤ := ⌊x + 1 / 2⌋

/-- Case-insensitive substring test, modelling
`s.toLowerCase().includes(pat)` for a lowercase pattern. -/
def containsCI (s pat : String) : Bool :=
  decide ((pat.toList.map Char.toLower) <:+: (s.toList.map Char.toLower))

/-- A `NearbyFacility` row as the radius query and the normalizer see it:
the facility type, the free-text distance and the canonical
distance-in-meters value (both optional). -/
structure Facility where
  facilityType : String
  distance : Option String
  distanceValue : Option ℚ
  deriving DecidableEq, Repr

/-- Radius predicate of `GET /api/properties/:id/nearby-facilities`
(`routes.ts` lines 320–336): a canonical `distanceValue` is compared
against the radius in meters; otherwise the leading numeric token of the
text `distance` is compared directly against the radius in kilometers;
otherwise the row is excluded. -/
def facilityWithinRadius (searchRadius : ℚ) (f : Facility) : Bool :=
  match f.distanceValue with
  | some dv => decide (dv ≤ searchRadius * 1000)
  | none =>
    match f.distance with
    | some s =>
      match distanceTextToQ s with
      | some v => decide (v ≤ searchRadius)
      | none => false
    | none => false

/-- JavaScript truthiness of an optional string (`undefined` and `""` are
falsy). -/
def optTruthy (o : Option String) : Option String :=
  match o with
  | none => none
  | some s => if s = "" then none else some s

/-- Response of the nearby-facilities endpoint: an HTTP error status or the
facility list. -/
inductive HResp where
  | err (code : ℕ)
  | ok (fs : List Facility)
  deriving DecidableEq, Repr

/-- Handler of `GET /api/properties/:id/nearby-facilities`: parse the id
(400 on failure), default the radius string to `"1"` and its parsed value
to 1 on `NaN`/`0`, fetch the property's facilities from storage, filter by
radius and then by facility type when one is (truthily) given. -/
def nearbyHandler (idStr : String) (radiusQ ftQ : Option String)
    (getNearby : ℤ → List Facility) : HResp :=
  match parseIntJS idStr with
  | none => .err 400
  | some id =>
    let searchRadius := jsQOr (parseFloatJS (radiusQ.getD "1")) 1
    let filteredByRadius := (getNearby id).filter (facilityWithinRadius searchRadius)
    match optTruthy ftQ with
    | some t => .ok (filteredByRadius.filter (fun f => f.facilityType == t))
    | none => .ok filteredByRadius

/-- JavaScript truthiness of an optional number (`undefined`, `null` and
`0` are falsy; `NaN` cannot be supplied through JSON). -/
def qTruthy (o : Option ℚ) : Bool :=
  match o with
  | none => false
  | some x => !decide (x = 0)

/-- The unit rule of the facility-creation handler (`routes.ts` lines
808–825): `"km"` (case-insensitive) multiplies by 1000 and rounds, `"m"`
rounds the number as meters, anything else defaults to kilometers. -/
def unitMeters (s : String) (x : ℚ) : ℚ :=
  if containsCI s "km" then (jsRound (x * 1000) : ℚ)
  else if containsCI s "m" then (jsRound x : ℚ)
  else (jsRound (x * 1000) : ℚ)

/-- The facility payload fields the distance normalizer of
`POST /api/admin/properties/:propertyId/facilities` reads. -/
structure FacPayload where
  distance : Option String
  distanceValue : Option ℚ
  latitude : Option String
  longitude : Option String
  deriving DecidableEq, Repr

/-- Text stage of the Facility Distance Normalizer (`routes.ts` lines
808–825): when `distanceValue` is falsy and `distance` is a truthy string
with a leading numeric token, derive `distanceValue` by the unit rule;
otherwise leave `distanceValue` unchanged. -/
def textStageDV (p : FacPayload) : Option ℚ :=
  match qTruthy p.distanceValue, optTruthy p.distance with
  | false, some s =>
    (match distanceTextToQ s with
     | some x => some (unitMeters s x)
     | none => p.distanceValue)
  | _, _ => p.distanceValue

/-- Coordinate stage of the Facility Distance Normalizer (`routes.ts`
lines 827–861), with the floating-point haversine computation abstracted
as its already-rounded result `hav`: when property and payload both carry
truthy coordinates and the text stage left `distanceValue` falsy, the
haversine meters are stored. -/
def facilityDV (hav : ℤ) (propLat propLng : Option String) (p : FacPayload) : Option ℚ :=
  let dv1 := textStageDV p
  if (optTruthy propLat).isSome && (optTruthy propLng).isSome &&
      (optTruthy p.latitude).isSome && (optTruthy p.longitude).isSome && !qTruthy dv1 then
    some (hav : ℚ)
  else dv1

/-- A property row, restricted to the fields the Property Filter Builder
constrains. -/
structure Property where
  title : String
  status : String
  category : String
  propertyType : String
  subType : String
  furnishedStatus : String
  parking : String
  facing : String
  price : ℤ
  area : ℤ
  bedrooms : Option ℤ
  bathrooms : Option ℤ
  isActive : Bool
  deriving DecidableEq, Repr

/-- Raw query string parameters of `GET /api/properties` (absent = `none`). -/
structure QueryParams where
  page : Option String := none
  limit : Option String := none
  status : Option String := none
  category : Option String := none
  propertyType : Option String := none
  subType : Option String := none
  minPrice : Option String := none
  maxPrice : Option String := none
  minArea : Option String := none
  maxArea : Option String := none
  bedrooms : Option String := none
  bathrooms : Option String := none
  furnishedStatus : Option String := none
  parking : Option String := none
  facing : Option String := none
  search : Option String := none
  deriving DecidableEq, Repr

/-- The normalized filter object built by the `GET /api/properties`
handler (`routes.ts` lines 214–249). Enum-typed fields are passed through
as raw strings: the TypeScript `as`-casts perform no runtime check. -/
structure PropertyFilters where
  page : ℤ
  limit : ℤ
  status : Option String
  category : Option String
  propertyType : Option String
  subType : Option String
  furnishedStatus : Option String
  parking : Option String
  facing : Option String
  minPrice : Option ℤ
  maxPrice : Option ℤ
  minArea : Option ℤ
  maxArea : Option ℤ
  bedrooms : Option ℤ
  bathrooms : Option ℤ
  search : Option String
  deriving DecidableEq, Repr

/-- `req.query.x ? parseInt(req.query.x) : undefined`: absent or empty is
absent; a `NaN` parse is treated as absent, matching the specification's
normalization rule for non-numeric numeric fields (§4.3). -/
def numParam (o : Option String) : Option ℤ :=
  match o with
  | none => none
  | some s => if s = "" then none else parseIntJS s

/-- Filter construction of the `GET /api/properties` handler: `page`
defaults to 1 and `limit` to 9 through `parseInt(...) || default`; enum
fields and `search` are passed through; numeric bounds are parsed. -/
def buildFilters (q : QueryParams) : PropertyFilters where
  page := jsIntOr (q.page.bind parseIntJS) 1
  limit := jsIntOr (q.limit.bind parseIntJS) 9
  status := q.status
  category := q.category
  propertyType := q.propertyType
  subType := q.subType
  furnishedStatus := q.furnishedStatus
  parking := q.parking
  facing := q.facing
  minPrice := numParam q.minPrice
  maxPrice := numParam q.maxPrice
  minArea := numParam q.minArea
  maxArea := numParam q.maxArea
  bedrooms := numParam q.bedrooms
  bathrooms := numParam q.bathrooms
  search := q.search

/-- Known enum values of `status`. -/
def statusEnum : List String := ["sale", "rent"]

/-- Known enum values of `category`. -/
def categoryEnum : List String := ["residential", "commercial"]

/-- Known enum values of `propertyType`. -/
def propertyTypeEnum : List String :=
  ["apartment", "independent-house", "villa", "farm-house", "shop", "basement"]

/-- Known enum values of `subType`. -/
def subTypeEnum : List String := ["1rk", "1bhk", "2bhk", "3bhk", "4bhk", "plot", "other"]

/-- Known enum values of `furnishedStatus`. -/
def furnishedEnum : List String := ["furnished", "semi-furnished", "unfurnished"]

/-- Known enum values of `parking`. -/
def parkingEnum : List String := ["car", "two-wheeler", "both", "none"]

/-- Known enum values of `facing`. -/
def facingEnum : List String := ["east", "west", "north", "south", "road", "park", "greenery"]

/-- Enum constraint: absent is unconstrained; a value in the known enum set
must match the row's field; a value outside the known set is ignored. -/
def enumOk (v : Option String) (known : List String) (field : String) : Bool :=
  match v with
  | none => true
  | some s => if s ∈ known then field == s else true

/-- Lower-bound constraint (absent = unconstrained). -/
def numGe (v : Option ℤ) (field : ℤ) : Bool :=
  match v with
  | none => true
  | some m => decide (m ≤ field)

/-- Upper-bound constraint (absent = unconstrained). -/
def numLe (v : Option ℤ) (field : ℤ) : Bool :=
  match v with
  | none => true
  | some m => decide (field ≤ m)

/-- Exact-count constraint on an optional row field. -/
def optNumEq (v : Option ℤ) (field : Option ℤ) : Bool :=
  match v with
  | none => true
  | some m => field == some m

/-- Free-text search constraint: case-insensitive substring match on the
title; absent or empty is unconstrained. -/
def searchOk (v : Option String) (title : String) : Bool :=
  match v with
  | none => true
  | some s => if s = "" then true else containsCI title s

/-- Modelled from the spec: the row predicate of
`storage.getPropertiesWithPagination` (`server/storage.ts` is absent from
the source tree; §4.3/§4.4 of the specification define its semantics).
Every absent field is unconstrained; enum values outside the known sets
are ignored; numeric bounds are inclusive; search is a case-insensitive
substring match on the title. -/
def matchesFilters (flt : PropertyFilters) (p : Property) : Bool :=
  enumOk flt.status statusEnum p.status &&
  enumOk flt.category categoryEnum p.category &&
  enumOk flt.propertyType propertyTypeEnum p.propertyType &&
  enumOk flt.subType subTypeEnum p.subType &&
  enumOk flt.furnishedStatus furnishedEnum p.furnishedStatus &&
  enumOk flt.parking parkingEnum p.parking &&
  enumOk flt.facing facingEnum p.facing &&
  numGe flt.minPrice p.price &&
  numLe flt.maxPrice p.price &&
  numGe flt.minArea p.area &&
  numLe flt.maxArea p.area &&
  optNumEq flt.bedrooms p.bedrooms &&
  optNumEq flt.bathrooms p.bathrooms &&
  searchOk flt.search p.title

/-- Modelled from the spec: `storage.getPropertiesWithPagination` (§4.4)
over an abstract property table — the page slice (offset
`(page-1)*limit`, size `limit`) of the rows matching all constraints,
together with the total matching count. -/
def getPropertiesWithPagination (flt : PropertyFilters) (ps : List Property) :
    List Property × ℕ :=
  let m := ps.filter (matchesFilters flt)
  ((m.drop ((flt.page - 1) * flt.limit).toNat).take flt.limit.toNat, m.length)

/-- Pagination metadata of the listing response. -/
structure Pagination where
  page : ℤ
  limit : ℤ
  total : ℕ
  totalPages : ℤ
  deriving DecidableEq, Repr

/-- Response body of `GET /api/properties`. -/
structure PropsResponse where
  properties : List Property
  pagination : Pagination
  deriving DecidableEq, Repr

/-- Listing response for a given normalized filter: the paginated query
result with pagination metadata, `totalPages = Math.ceil(total / limit)`
(`routes.ts` lines 255–269). -/
def respOf (flt : PropertyFilters) (ps : List Property) : PropsResponse :=
  let r := getPropertiesWithPagination flt ps
  { properties := r.1
    pagination :=
      { page := flt.page
        limit := flt.limit
        total := r.2
        totalPages := ⌈(r.2 : ℚ) / (flt.limit : ℚ)⌉ } }

/-- Handler of `GET /api/properties` (`routes.ts` lines 210–269): build
the filters from the query string and produce the listing response. -/
def propertiesHandler (q : QueryParams) (ps : List Property) : PropsResponse :=
  respOf (buildFilters q) ps

/-- Client-side page count of `properties-page.tsx` (line 173):
`pages: pagination.totalPages || 1`, flooring the displayed count at 1. -/
def clientPages (tp : ℤ) : ℤ :=
  if tp = 0 then 1 else tp


/-- Membership in a successful nearby-facilities response implies the
radius predicate held at the effective search radius. -/
lemma mem_nearby_ok (idStr : String) (radiusQ ftQ : Option String)
    (getN : ℤ → List Facility) (l : List Facility) (f : Facility)
    (hok : nearbyHandler idStr radiusQ ftQ getN = .ok l) (hf : f ∈ l) :
    facilityWithinRadius (jsQOr (parseFloatJS (radiusQ.getD "1")) 1) f = true := by
  unfold nearbyHandler at hok
  cases hid : parseIntJS idStr with
  | none => rw [hid] at hok; exact absurd hok (by simp)
  | some pid =>
    rw [hid] at hok
    simp only at hok
    cases hft : optTruthy ftQ with
    | some t =>
      rw [hft] at hok
      injection hok with h
      subst h
      exact (List.mem_filter.mp (List.mem_filter.mp hf).1).2
    | none =>
      rw [hft] at hok
      injection hok with h
      subst h
      exact (List.mem_filter.mp hf).2

/-- With no facility-type filter and a valid id, the response is exactly
the radius-filtered facility list. -/
lemma nearby_ok_of_none (idStr : String) (radiusQ : Option String)
    (getN : ℤ → List Facility) (pid : ℤ) (hid : parseIntJS idStr = some pid) :
    nearbyHandler idStr radiusQ none getN =
      .ok ((getN pid).filter
        (facilityWithinRadius (jsQOr (parseFloatJS (radiusQ.getD "1")) 1))) := by
  unfold nearbyHandler
  rw [hid]
  rfl

/-- C9. A non-numeric `:id` path parameter (one on which integer parsing
fails) makes `GET /api/properties/:id/nearby-facilities` answer 400, for
every storage content — the storage function is never consulted. -/
theorem nearby_invalid_id_400 (idStr : String) (radiusQ ftQ : Option String)
    (getN : ℤ → List Facility) (h : parseIntJS idStr = none) :
    nearbyHandler idStr radiusQ ftQ getN = .err 400 := by
  unfold nearbyHandler
  rw [h]

/-- C9 witness: the concrete id `"abc"` fails to parse and yields 400. -/
theorem nearby_invalid_id_400_witness :
    nearbyHandler "abc" (some "2") none (fun _ => []) = .err 400 :=
  nearby_invalid_id_400 "abc" (some "2") none (fun _ => [])
    (by with_unfolding_all decide)

/-- C10. A `radius` query value that parses to `0` or fails to parse as a
float is evaluated with the default radius of 1 km: the endpoint behaves
exactly as with `radius=1`, and in particular a facility with canonical
distance at most 1000 m is returned under `radius=0` rather than an empty
set. -/
theorem nearby_radius_default (idStr : String) (ftQ : Option String)
    (getN : ℤ → List Facility) (rs : String)
    (h : parseFloatJS rs = none ∨ parseFloatJS rs = some 0) :
    nearbyHandler idStr (some rs) ftQ getN = nearbyHandler idStr (some "1") ftQ getN ∧
    (∀ pid, parseIntJS idStr = some pid → ftQ = none →
      ∀ f ∈ getN pid, ∀ d : ℚ, f.distanceValue = some d → d ≤ 1000 →
        ∃ l, nearbyHandler idStr (some rs) ftQ getN = .ok l ∧ f ∈ l) := by
  have hone : parseFloatJS "1" = some 1 := by with_unfolding_all decide
  have heff : jsQOr (parseFloatJS ((some rs).getD "1")) 1 = 1 := by
    rcases h with h | h <;> simp [h, jsQOr]
  have heff1 : jsQOr (parseFloatJS ((some "1" : Option String).getD "1")) 1 = 1 := by
    simp [hone, jsQOr]
  constructor
  · unfold nearbyHandler
    rw [show jsQOr (parseFloatJS ((some rs).getD "1")) 1 =
        jsQOr (parseFloatJS ((some "1" : Option String).getD "1")) 1 from heff.trans heff1.symm]
  · intro pid hid hft f hf d hd hle
    subst hft
    refine ⟨_, nearby_ok_of_none idStr (some rs) getN pid hid, ?_⟩
    rw [heff]
    refine List.mem_filter.mpr ⟨hf, ?_⟩
    simp only [facilityWithinRadius, hd]
    simpa using hle

/-- C10 witness: with `radius=0` the behaviour matches `radius=1` and a
facility stored at exactly 1000 m is returned. -/
theorem nearby_radius_default_witness :
    nearbyHandler "3" (some "0") none (fun _ => [⟨"park", none, some 1000⟩]) =
      nearbyHandler "3" (some "1") none (fun _ => [⟨"park", none, some 1000⟩]) ∧
    ∃ l, nearbyHandler "3" (some "0") none (fun _ => [⟨"park", none, some 1000⟩]) = .ok l ∧
      (⟨"park", none, some 1000⟩ : Facility) ∈ l := by
  have h := nearby_radius_default "3" none (fun _ => [⟨"park", none, some 1000⟩]) "0"
    (Or.inr (by with_unfolding_all decide))
  exact ⟨h.1, h.2 3 (by with_unfolding_all decide) rfl ⟨"park", none, some 1000⟩
    (by simp) 1000 rfl (by norm_num)⟩

/-- C5. The canonical-distance boundary of the Nearby-Facility Radius
Query is inclusive: at an effective radius `R` (the parsed, nonzero
`radius` parameter), a returned-property facility stored at exactly
`R*1000` meters is in the response and one stored at `R*1000 + 1` meters
is not. -/
theorem nearby_inclusive_boundary (idStr rs : String) (R : ℚ) (pid : ℤ)
    (getN : ℤ → List Facility) (l : List Facility) (f g : Facility)
    (hid : parseIntJS idStr = some pid)
    (hr : parseFloatJS rs = some R) (hR : R ≠ 0)
    (hok : nearbyHandler idStr (some rs) none getN = .ok l) :
    (f ∈ getN pid → f.distanceValue = some (R * 1000) → f ∈ l) ∧
    (g.distanceValue = some (R * 1000 + 1) → g ∉ l) := by
  have heff : jsQOr (parseFloatJS ((some rs).getD "1")) 1 = R := by
    simp [hr, jsQOr, hR]
  have hl : l = (getN pid).filter (facilityWithinRadius R) := by
    have := nearby_ok_of_none idStr (some rs) getN pid hid
    rw [heff] at this
    rw [this] at hok
    injection hok with h
    exact h.symm
  constructor
  · intro hmem hdv
    rw [hl]
    refine List.mem_filter.mpr ⟨hmem, ?_⟩
    simp [facilityWithinRadius, hdv]
  · intro hdv hmem
    have := mem_nearby_ok idStr (some rs) none getN l g hok hmem
    rw [heff] at this
    simp only [facilityWithinRadius, hdv, decide_eq_true_eq] at this
    linarith

/-- C5 witness: at radius 2 km a facility at 2000 m is returned and one at
2001 m is not. -/
theorem nearby_inclusive_boundary_witness :
    (⟨"school", none, some 2000⟩ : Facility) ∈
      [(⟨"school", none, some 2000⟩ : Facility)] ∧
    (⟨"school", none, some 2001⟩ : Facility) ∉
      [(⟨"school", none, some 2000⟩ : Facility)] := by
  have h := nearby_inclusive_boundary "5" "2" 2 5
    (fun _ => [⟨"school", none, some 2000⟩, ⟨"school", none, some 2001⟩])
    [⟨"school", none, some 2000⟩] ⟨"school", none, some 2000⟩ ⟨"school", none, some 2001⟩
    (by with_unfolding_all decide) (by with_unfolding_all decide) (by norm_num)
    (by with_unfolding_all decide)
  exact ⟨h.1 (by simp) (by norm_num), h.2 (by norm_num)⟩

/-- C6. A facility row with no canonical `distanceValue` and whose
free-text `distance` does not begin with a numeric token is excluded from
the Nearby-Facility Radius Query result, for every radius and every
facility-type filter. -/
theorem nearby_unparseable_excluded (idStr : String) (radiusQ ftQ : Option String)
    (getN : ℤ → List Facility) (l : List Facility) (f : Facility)
    (hdv : f.distanceValue = none)
    (hds : ∀ s, f.distance = some s → distanceTextToQ s = none)
    (hok : nearbyHandler idStr radiusQ ftQ getN = .ok l) :
    f ∉ l := by
  intro hmem
  have h := mem_nearby_ok idStr radiusQ ftQ getN l f hok hmem
  rw [facilityWithinRadius, hdv] at h
  cases hd : f.distance with
  | none => rw [hd] at h; simp at h
  | some s => rw [hd] at h; simp [hds s hd] at h

/-- C6 witness: a facility with null canonical distance and text
`"near the gate"` is excluded at radius 5. -/
theorem nearby_unparseable_excluded_witness :
    (⟨"school", some "near the gate", none⟩ : Facility) ∉ ([] : List Facility) := by
  exact nearby_unparseable_excluded "1" (some "5") none
    (fun _ => [⟨"school", some "near the gate", none⟩]) []
    ⟨"school", some "near the gate", none⟩ rfl
    (fun s hs => by injection hs with h; rw [← h]; with_unfolding_all decide)
    (by with_unfolding_all decide)

/-- C1 (code evaluated at the failing input). The radius-query fallback
does not apply the Facility Distance Normalizer's unit rule: a facility
with no canonical distance and text `"800 m"` is excluded at
`radius=0.8`, although the normalizer's unit rule reads `"800 m"` as 800
meters and `800 ≤ 0.8 * 1000`. The fallback compares the parsed leading
number (800) directly against the radius in kilometers (0.8). -/
theorem nearby_fallback_ignores_meter_suffix :
    nearbyHandler "7" (some "0.8") none
      (fun _ => [⟨"school", some "800 m", none⟩]) = .ok [] ∧
    parseFloatJS "0.8" = some (4 / 5) ∧
    distanceTextToQ "800 m" = some 800 ∧
    unitMeters "800 m" 800 = 800 ∧
    ((800 : ℚ) ≤ (4 / 5) * 1000) := by
  refine ⟨by with_unfolding_all decide, by with_unfolding_all decide,
    by with_unfolding_all decide, by with_unfolding_all decide, by norm_num⟩

/-- C8. In the `GET /api/properties` filter builder, `page` defaults to 1
whenever the `page` query string is absent or does not parse as a number,
and `limit` likewise defaults to 9 (`parseInt(...) || default`). -/
theorem page_limit_defaults (q : QueryParams) :
    (q.page.bind parseIntJS = none → (buildFilters q).page = 1) ∧
    (q.limit.bind parseIntJS = none → (buildFilters q).limit = 9) := by
  constructor <;> intro h <;> simp [buildFilters, jsIntOr, h]

/-- C8 witness: `page=abc` yields page 1 and an absent `limit` yields 9. -/
theorem page_limit_defaults_witness :
    (buildFilters { page := some "abc" }).page = 1 ∧
    (buildFilters { page := some "abc" }).limit = 9 :=
  ⟨(page_limit_defaults { page := some "abc" }).1 (by with_unfolding_all decide),
   (page_limit_defaults { page := some "abc" }).2 rfl⟩

/-- Evaluation of the unit rule on `"2.5 km"`. -/
lemma unitMeters_km_example : unitMeters "2.5 km" (5 / 2) = 2500 := by
  rw [unitMeters, show containsCI "2.5 km" "km" = true from by with_unfolding_all decide]
  simp only [if_true]
  norm_num [jsRound]

/-- Evaluation of the unit rule on `"800 m"`. -/
lemma unitMeters_m_example : unitMeters "800 m" 800 = 800 := by
  rw [unitMeters, show containsCI "800 m" "km" = false from by with_unfolding_all decide,
    show containsCI "800 m" "m" = true from by with_unfolding_all decide]
  simp only [Bool.false_eq_true, if_false, if_true]
  norm_num [jsRound]

/-- Evaluation of the unit rule on the unit-less `"3"`. -/
lemma unitMeters_default_example : unitMeters "3" 3 = 3000 := by
  rw [unitMeters, show containsCI "3" "km" = false from by with_unfolding_all decide,
    show containsCI "3" "m" = false from by with_unfolding_all decide]
  simp only [Bool.false_eq_true, if_false]
  norm_num [jsRound]

/-- C3 counterexample: a caller-supplied numeric `distanceValue` of `0` is
not used as-is — `!facilityData.distanceValue` treats `0` as absent, so
the text `"2.5 km"` overrides it with 2500. -/
theorem supplied_zero_distance_overridden :
    textStageDV ⟨some "2.5 km", some 0, none, none⟩ = some 2500 ∧
    facilityDV 0 none none ⟨some "2.5 km", some 0, none, none⟩ = some 2500 ∧
    textStageDV ⟨some "2.5 km", some 0, none, none⟩ ≠ some 0 := by
  have h1 : textStageDV ⟨some "2.5 km", some 0, none, none⟩ = some 2500 := by
    rw [textStageDV]
    simp only [show qTruthy (some (0 : ℚ)) = false from by with_unfolding_all decide,
      show optTruthy (some "2.5 km") = some "2.5 km" from by with_unfolding_all decide,
      show distanceTextToQ "2.5 km" = some (5 / 2) from by with_unfolding_all decide,
      unitMeters_km_example]
  refine ⟨h1, ?_, by rw [h1]; norm_num⟩
  rw [facilityDV, h1]
  simp [optTruthy, qTruthy]

/-- C3 amended: a supplied *nonzero* numeric `distanceValue` is used
as-is (a supplied `0` is treated as absent by JavaScript truthiness);
otherwise, when the `distance` string has a leading numeric token, the
parsed number is multiplied by 1000 and rounded if the string contains
`"km"` (case-insensitive), rounded as meters if it contains `"m"`, and
multiplied by 1000 otherwise; so `"2.5 km"` yields 2500, `"800 m"` yields
800 and `"3"` yields 3000. -/
theorem facility_distance_normalizer (p : FacPayload) (hav : ℤ)
    (plat plng : Option String) :
    (∀ v : ℚ, v ≠ 0 → p.distanceValue = some v →
      facilityDV hav plat plng p = some v) ∧
    ((p.distanceValue = none ∨ p.distanceValue = some 0) →
      ∀ s x, p.distance = some s → distanceTextToQ s = some x →
        textStageDV p = some (unitMeters s x)) ∧
    unitMeters "2.5 km" (5 / 2) = 2500 ∧
    unitMeters "800 m" 800 = 800 ∧
    unitMeters "3" 3 = 3000 ∧
    distanceTextToQ "2.5 km" = some (5 / 2) ∧
    distanceTextToQ "800 m" = some 800 ∧
    distanceTextToQ "3" = some 3 := by
  refine ⟨?_, ?_, unitMeters_km_example, unitMeters_m_example,
    unitMeters_default_example, by with_unfolding_all decide,
    by with_unfolding_all decide, by with_unfolding_all decide⟩
  · intro v hv hdv
    have ht : qTruthy p.distanceValue = true := by
      rw [hdv]; simp [qTruthy, hv]
    have h1 : textStageDV p = some v := by
      rw [textStageDV, ht, hdv]
    rw [facilityDV, h1]
    simp [qTruthy, hv]
  · intro hdv s x hs hx
    have ht : qTruthy p.distanceValue = false := by
      rcases hdv with h | h <;> rw [h] <;> simp [qTruthy]
    have hne : s ≠ "" := by
      intro h
      rw [h, show distanceTextToQ "" = none from by with_unfolding_all decide] at hx
      exact Option.noConfusion hx
    rw [textStageDV, ht, hs]
    simp only [optTruthy, if_neg hne, hx]

/-- C3 amended witness: a supplied nonzero value 5 survives both stages,
and with a zero supplied value the text `"800 m"` produces 800. -/
theorem facility_distance_normalizer_witness :
    facilityDV 0 none none ⟨some "far away", some 5, none, none⟩ = some 5 ∧
    textStageDV ⟨some "800 m", some 0, none, none⟩ = some 800 := by
  constructor
  · exact (facility_distance_normalizer ⟨some "far away", some 5, none, none⟩
      0 none none).1 5 (by norm_num) rfl
  · have h := (facility_distance_normalizer ⟨some "800 m", some 0, none, none⟩
      0 none none).2.1 (Or.inr rfl) "800 m" 800 rfl (by with_unfolding_all decide)
    rw [h, unitMeters_m_example]

/-- Arithmetic fact: `t ≤ ⌈(t+b-1)/b⌉-style` ceiling numerator bound. -/
lemma nat_ceil_helper1 (t b : ℕ) (hb : 0 < b) : t ≤ ((t + b - 1) / b) * b := by
  have h : t + b - 1 < ((t + b - 1) / b + 1) * b :=
    (Nat.div_lt_iff_lt_mul hb).mp (Nat.lt_succ_self _)
  rw [Nat.succ_mul] at h
  omega

/-- Arithmetic fact: the predecessor of the natural ceiling quotient
undershoots `t`. -/
lemma nat_ceil_helper2 (t b : ℕ) (hb : 0 < b) (hq : 0 < (t + b - 1) / b) :
    ((t + b - 1) / b - 1) * b < t := by
  have h1 : ((t + b - 1) / b) * b ≤ t + b - 1 := Nat.div_mul_le_self _ _
  have ht : 0 < t := by
    by_contra h
    have ht0 : t = 0 := by omega
    subst ht0
    have : (0 + b - 1) / b = 0 := Nat.div_eq_of_lt (by omega)
    omega
  obtain ⟨k, hk⟩ : ∃ k, (t + b - 1) / b = k + 1 := ⟨(t + b - 1) / b - 1, by omega⟩
  rw [hk] at h1 ⊢
  rw [Nat.add_sub_cancel]
  rw [Nat.succ_mul] at h1
  omega

/-- `Math.ceil` of a nonnegative rational quotient agrees with natural
ceiling division: `⌈t / b⌉ = (t + b - 1) / b`. -/
lemma ceil_cast_div_eq (t b : ℕ) (hb : 0 < b) :
    ⌈(t : ℚ) / (b : ℚ)⌉ = (((t + b - 1) / b : ℕ) : ℤ) := by
  apply le_antisymm
  · rw [Int.ceil_le, div_le_iff₀ (by positivity : (0 : ℚ) < (b : ℚ))]
    exact_mod_cast nat_ceil_helper1 t b hb
  · rcases Nat.eq_zero_or_pos ((t + b - 1) / b) with h0 | hpos
    · rw [h0]
      exact_mod_cast Int.ceil_nonneg (by positivity : (0 : ℚ) ≤ (t : ℚ) / (b : ℚ))
    · have hlt : (((t + b - 1) / b : ℕ) : ℤ) - 1 < ⌈(t : ℚ) / (b : ℚ)⌉ := by
        rw [Int.lt_ceil, lt_div_iff₀ (by positivity : (0 : ℚ) < (b : ℚ)),
          Int.cast_sub, Int.cast_one, Int.cast_natCast]
        have key := nat_ceil_helper2 t b hb hpos
        have key' : ((((t + b - 1) / b - 1) * b : ℕ) : ℚ) < (t : ℚ) := by exact_mod_cast key
        push_cast [Nat.cast_sub hpos] at key'
        linarith
      omega

/-- C7. The listing response's `pagination.totalPages` is the ceiling of
`total / limit` (stated as the natural ceiling-division value), and the
client consumer (`pages: pagination.totalPages || 1`) floors the
displayed page count at 1 when `total` is 0. -/
theorem totalPages_ceil (q : QueryParams) (ps : List Property)
    (hl : 0 < (buildFilters q).limit) :
    (propertiesHandler q ps).pagination.totalPages =
      ((((propertiesHandler q ps).pagination.total + (buildFilters q).limit.toNat - 1) /
        (buildFilters q).limit.toNat : ℕ) : ℤ) ∧
    ((propertiesHandler q ps).pagination.total = 0 →
      clientPages (propertiesHandler q ps).pagination.totalPages = 1) := by
  have hb : 0 < (buildFilters q).limit.toNat := by omega
  have hcast : ((buildFilters q).limit : ℚ) = (((buildFilters q).limit.toNat : ℕ) : ℚ) := by
    exact_mod_cast congrArg (fun z : ℤ => (z : ℚ)) (Int.toNat_of_nonneg hl.le).symm
  constructor
  · simp only [propertiesHandler, respOf]
    rw [hcast, ceil_cast_div_eq _ _ hb]
  · intro h0
    simp only [propertiesHandler, respOf] at h0 ⊢
    rw [h0]
    norm_num [clientPages]

/-- C7 witness: the empty table under default filters gives `totalPages =
(0 + 9 - 1) / 9 = 0` and a displayed page count of 1. -/
theorem totalPages_ceil_witness :
    (propertiesHandler {} []).pagination.totalPages =
      ((((propertiesHandler {} []).pagination.total + (buildFilters {}).limit.toNat - 1) /
        (buildFilters {}).limit.toNat : ℕ) : ℤ) ∧
    clientPages (propertiesHandler {} []).pagination.totalPages = 1 := by
  have h := totalPages_ceil {} [] (by with_unfolding_all decide)
  exact ⟨h.1, h.2 rfl⟩

/-- An enum filter value outside the known set imposes no constraint. -/
lemma enumOk_invalid (s : String) (known : List String) (h : s ∉ known)
    (field : String) : enumOk (some s) known field = true := by
  simp [enumOk, h]

/-- An absent enum filter value imposes no constraint. -/
lemma enumOk_none (known : List String) (field : String) :
    enumOk none known field = true := rfl

/-- Listing responses agree whenever page, limit and the row predicate
agree. -/
lemma respOf_congr (fl fl' : PropertyFilters) (ps : List Property)
    (hp : fl.page = fl'.page) (hl : fl.limit = fl'.limit)
    (hm : ∀ p, matchesFilters fl p = matchesFilters fl' p) :
    respOf fl ps = respOf fl' ps := by
  have hf : ps.filter (matchesFilters fl) = ps.filter (matchesFilters fl') :=
    List.filter_congr (fun p _ => hm p)
  simp only [respOf, getPropertiesWithPagination, hf, hp, hl]

/-- C2. A query-string value of an enum-typed filter field (status,
category, propertyType, subType, furnishedStatus, parking, facing) that
is not in the known enum set is ignored as a constraint: the response —
items and pagination alike — is identical to the one for the same query
with that field absent. -/
theorem invalid_enum_ignored (q : QueryParams) (ps : List Property) :
    (∀ s, s ∉ statusEnum → propertiesHandler { q with status := some s } ps =
      propertiesHandler { q with status := none } ps) ∧
    (∀ s, s ∉ categoryEnum → propertiesHandler { q with category := some s } ps =
      propertiesHandler { q with category := none } ps) ∧
    (∀ s, s ∉ propertyTypeEnum → propertiesHandler { q with propertyType := some s } ps =
      propertiesHandler { q with propertyType := none } ps) ∧
    (∀ s, s ∉ subTypeEnum → propertiesHandler { q with subType := some s } ps =
      propertiesHandler { q with subType := none } ps) ∧
    (∀ s, s ∉ furnishedEnum → propertiesHandler { q with furnishedStatus := some s } ps =
      propertiesHandler { q with furnishedStatus := none } ps) ∧
    (∀ s, s ∉ parkingEnum → propertiesHandler { q with parking := some s } ps =
      propertiesHandler { q with parking := none } ps) ∧
    (∀ s, s ∉ facingEnum → propertiesHandler { q with facing := some s } ps =
      propertiesHandler { q with facing := none } ps) := by
  refine ⟨?_, ?_, ?_, ?_, ?_, ?_, ?_⟩ <;>
    · intro s hs
      simp only [propertiesHandler]
      refine respOf_congr _ _ ps rfl rfl ?_
      intro p
      simp only [buildFilters, matchesFilters, enumOk_invalid s _ hs, enumOk_none]

/-- C2 witness: `status=invalid-enum-value` over a one-row table behaves
exactly as if `status` were absent. -/
theorem invalid_enum_ignored_witness :
    propertiesHandler { ({} : QueryParams) with status := some "invalid-enum-value" }
      [⟨"Flat A", "sale", "residential", "apartment", "1bhk", "furnished", "car",
        "east", 100, 50, none, none, true⟩] =
    propertiesHandler { ({} : QueryParams) with status := none }
      [⟨"Flat A", "sale", "residential", "apartment", "1bhk", "furnished", "car",
        "east", 100, 50, none, none, true⟩] :=
  (invalid_enum_ignored {}
    [⟨"Flat A", "sale", "residential", "apartment", "1bhk", "furnished", "car",
      "east", 100, 50, none, none, true⟩]).1 "invalid-enum-value" (by decide)
